import Mathlib

/-!
Shallow embedding of the `perfect-scale` rendering host (src/app.rs, src/main.rs).

The program is a single-threaded winit/wgpu application: `Application::new`
negotiates a surface configuration from adapter capabilities, `resize`
reconfigures the surface on size changes, `render` records one clear-only
render pass and presents, and `run` drives a closure-based event loop.

The embedding models the mutable `Application` state explicitly, records the
externally visible GPU/window operations as an `Effect` trace, and treats the
outcome of `surface.get_current_texture()` (the only fallible per-frame call)
as an environment-supplied oracle.  Floating-point values are kept symbolic as
expression trees (`F64`): the clear color is a compile-time constant built
from literals, divisions and `powf`, and the claims about it are structural.
-/

namespace PerfectScale

/-- `winit::dpi::PhysicalSize<u32>`: a pair of pixel dimensions. -/
structure PhysicalSize where
  width : Nat
  height : Nat
deriving DecidableEq, Repr

/-- `wgpu::TextureFormat`, abstracted to an identity plus its sRGB-ness, which
is the only property the source inspects (`TextureFormat::is_srgb`). -/
structure TextureFormat where
  ident : Nat
  srgb : Bool
deriving DecidableEq, Repr

/-- `TextureFormat::is_srgb` from wgpu, as used in `Application::new`. -/
def TextureFormat.is_srgb (f : TextureFormat) : Bool :=
  f.srgb

/-- `wgpu::PresentMode`, abstracted to an identity (the source never inspects it). -/
abbrev PresentMode := Nat

/-- `wgpu::CompositeAlphaMode`, abstracted to an identity. -/
abbrev AlphaMode := Nat

/-- `wgpu::TextureUsages`; the source only ever uses `RENDER_ATTACHMENT`. -/
inductive TextureUsages where
  | RENDER_ATTACHMENT
deriving DecidableEq, Repr

/-- `wgpu::SurfaceConfiguration` as constructed in `Application::new`
(src/app.rs lines 67-75). -/
structure SurfaceConfiguration where
  usage : TextureUsages
  format : TextureFormat
  width : Nat
  height : Nat
  present_mode : PresentMode
  alpha_mode : AlphaMode
  view_formats : List TextureFormat
deriving DecidableEq, Repr

/-- The mutable state of the `Application` struct (src/app.rs lines 9-16).
The `surface`, `device`, `queue` and `window` fields are opaque handles whose
operations are recorded on the effect trace; the window is represented by its
identity, which is all the event loop reads from it. -/
structure Application where
  config : SurfaceConfiguration
  size : PhysicalSize
  window_id : Nat
deriving DecidableEq, Repr

/-- `wgpu::SurfaceError` (the four kinds of wgpu 0.16, matched in `run`). -/
inductive SurfaceError where
  | Timeout
  | Outdated
  | Lost
  | OutOfMemory
deriving DecidableEq, Repr

/-- Symbolic `f64` expressions: the source computes the clear color with
`f64::powf(v / 255.0, 2.2)`; we keep the computation as a syntax tree so the
definition stays executable and structurally comparable. -/
inductive F64 where
  | lit (q : Rat)
  | fdiv (a b : F64)
  | powf (a b : F64)
deriving DecidableEq, Repr

/-- `wgpu::Color` with symbolic `f64` channels. -/
structure Color where
  r : F64
  g : F64
  b : F64
  a : F64
deriving DecidableEq, Repr

/-- `wgpu::LoadOp`; the source only uses `Clear`. -/
inductive LoadOp where
  | Clear (c : Color)
deriving DecidableEq, Repr

/-- `wgpu::Operations` of a color attachment. -/
structure Operations where
  load : LoadOp
  store : Bool
deriving DecidableEq, Repr

/-- `wgpu::RenderPassColorAttachment`; the view is the frame's view (opaque). -/
structure RenderPassColorAttachment where
  resolve_target : Option Unit
  ops : Operations
deriving DecidableEq, Repr

/-- `wgpu::RenderPassDescriptor`: attachments of the single pass recorded by
`Application::render` (src/app.rs lines 119-135). -/
structure RenderPassDescriptor where
  color_attachments : List (Option RenderPassColorAttachment)
  depth_stencil_attachment : Option Unit
deriving DecidableEq, Repr

/-- The clear color built in `Application::render` (src/app.rs lines 125-130):
`r = powf(100.0 / 255.0, 2.2)`, `g = powf(149.0 / 255.0, 2.2)`,
`b = powf(237.0 / 255.0, 2.2)`, `a = 1.0`. -/
def clearColor : Color where
  r := F64.powf (F64.fdiv (F64.lit 100) (F64.lit 255)) (F64.lit 2.2)
  g := F64.powf (F64.fdiv (F64.lit 149) (F64.lit 255)) (F64.lit 2.2)
  b := F64.powf (F64.fdiv (F64.lit 237) (F64.lit 255)) (F64.lit 2.2)
  a := F64.lit 1

/-- The render-pass descriptor recorded by `Application::render`
(src/app.rs lines 119-135): one color attachment, no resolve target,
clear to `clearColor`, `store: true`, no depth/stencil attachment. -/
def renderPassDesc : RenderPassDescriptor where
  color_attachments :=
    [some { resolve_target := none
            ops := { load := LoadOp.Clear clearColor, store := true } }]
  depth_stencil_attachment := none

/-- Externally visible operations issued by the application, in program order.
`configureSurface` is `surface.configure(&device, &config)`; `acquire` is
`surface.get_current_texture()`; `beginRenderPass`/`submit`/`present` are the
frame operations of `render`; `requestRedraw` is `window.request_redraw()`;
`resizeCall` marks the driver invoking `Application::resize`; `log` is the
`eprintln!` diagnostic. -/
inductive Effect where
  | configureSurface (c : SurfaceConfiguration)
  | acquire
  | beginRenderPass (d : RenderPassDescriptor)
  | submit
  | present
  | requestRedraw
  | resizeCall (s : PhysicalSize)
  | log (e : SurfaceError)
deriving DecidableEq, Repr

/-- Result of the environment's `surface.get_current_texture()` call: either a
frame is acquired or a `SurfaceError` is returned. -/
inductive AcquireResult where
  | ok
  | err (e : SurfaceError)
deriving DecidableEq, Repr

/-- `Application::resize` (src/app.rs lines 92-99): if both dimensions are
positive, store the new size, update the config's width/height in place and
reconfigure the surface; otherwise do nothing. -/
def Application.resize (app : Application) (new_size : PhysicalSize) :
    Application × List Effect :=
  if new_size.width > 0 && new_size.height > 0 then
    let config :=
      { app.config with width := new_size.width, height := new_size.height }
    ({ app with size := new_size, config := config },
     [Effect.configureSurface config])
  else
    (app, [])

/-- `Application::update` (src/app.rs lines 105-107): intentionally empty. -/
def Application.update (app : Application) : Application :=
  app

/-- `Application::render` (src/app.rs lines 109-141): acquire the current
texture (propagating a failure with `?`), record the single clear pass,
submit and present.  The acquisition outcome is the environment's input. -/
def Application.render (_app : Application) (acq : AcquireResult) :
    Except SurfaceError Unit × List Effect :=
  match acq with
  | AcquireResult.err e => (Except.error e, [Effect.acquire])
  | AcquireResult.ok =>
      (Except.ok (),
       [Effect.acquire, Effect.beginRenderPass renderPassDesc,
        Effect.submit, Effect.present])

/-- `winit::event::ElementState`. -/
inductive ElementState where
  | Pressed
  | Released
deriving DecidableEq, Repr

/-- `winit::event::VirtualKeyCode`, abstracted to `Escape` versus any other key. -/
inductive VirtualKeyCode where
  | Escape
  | Other (code : Nat)
deriving DecidableEq, Repr

/-- The `winit::event::WindowEvent` variants the loop distinguishes
(src/app.rs lines 164-180); everything else is `UnhandledKind`. -/
inductive WindowEvent where
  | CloseRequested
  | KeyboardInput (state : ElementState) (virtual_keycode : Option VirtualKeyCode)
  | Resized (size : PhysicalSize)
  | ScaleFactorChanged (new_inner_size : PhysicalSize)
  | UnhandledKind
deriving DecidableEq, Repr

/-- `Application::input` (src/app.rs lines 101-103): always declines to
consume the event. -/
def Application.input (_app : Application) (_event : WindowEvent) : Bool :=
  false

/-- The `winit::event::Event` variants the loop distinguishes
(src/app.rs lines 160-193), plus `RedrawEventsCleared` and `LoopDestroyed`:
the closure sends those to its catch-all arm, but they structure the loop's
iterations — `RedrawEventsCleared` ends an iteration's redraw phase and is
where winit 0.28 checks the control flow, and `LoopDestroyed` is the final
callback before the loop returns.  Everything else is `UnhandledKind`. -/
inductive Event where
  | WindowEvent (window_id : Nat) (event : WindowEvent)
  | RedrawRequested (window_id : Nat)
  | MainEventsCleared
  | RedrawEventsCleared
  | LoopDestroyed
  | UnhandledKind
deriving DecidableEq, Repr

/-- `winit::event_loop::ControlFlow` as used by the source: `Poll` (the
Running state, set at the top of every pass) or `Exit` (the Exiting state). -/
inductive ControlFlow where
  | Poll
  | Exit
deriving DecidableEq, Repr

/-- One invocation of the event-loop closure (src/app.rs lines 157-194): it
first sets `ControlFlow::Poll`, then dispatches on the event.  The result is
the application state, the control flow at the end of the pass, and the
effects issued during the pass, in order.  `acq` supplies the outcome of the
frame acquisition should the pass render. -/
def step (app : Application) (ev : Event) (acq : AcquireResult) :
    Application × ControlFlow × List Effect :=
  match ev with
  | Event.WindowEvent window_id event =>
      if window_id == app.window_id && !app.input event then
        match event with
        | WindowEvent.CloseRequested => (app, ControlFlow.Exit, [])
        | WindowEvent.KeyboardInput ElementState.Pressed
            (some VirtualKeyCode.Escape) => (app, ControlFlow.Exit, [])
        | WindowEvent.Resized size =>
            let r := app.resize size
            (r.1, ControlFlow.Poll, Effect.resizeCall size :: r.2)
        | WindowEvent.ScaleFactorChanged new_inner_size =>
            let r := app.resize new_inner_size
            (r.1, ControlFlow.Poll, Effect.resizeCall new_inner_size :: r.2)
        | _ => (app, ControlFlow.Poll, [])
      else (app, ControlFlow.Poll, [])
  | Event.RedrawRequested window_id =>
      if window_id == app.window_id then
        let app1 := app.update
        match app1.render acq with
        | (Except.ok _, effs) => (app1, ControlFlow.Poll, effs)
        | (Except.error SurfaceError.Lost, effs) =>
            let r := app1.resize app1.size
            (r.1, ControlFlow.Poll,
             effs ++ Effect.resizeCall app1.size :: r.2)
        | (Except.error SurfaceError.OutOfMemory, effs) =>
            (app1, ControlFlow.Exit, effs)
        | (Except.error e, effs) =>
            (app1, ControlFlow.Poll, effs ++ [Effect.log e])
      else (app, ControlFlow.Poll, [])
  | Event.MainEventsCleared => (app, ControlFlow.Poll, [Effect.requestRedraw])
  | Event.RedrawEventsCleared => (app, ControlFlow.Poll, [])
  | Event.LoopDestroyed => (app, ControlFlow.Poll, [])
  | Event.UnhandledKind => (app, ControlFlow.Poll, [])

/-- The event loop: `EventLoop::run` of winit 0.28.  `ControlFlow::Exit` is
sticky: after a pass sets it, the closure is still invoked for the remaining
events of the current iteration (winit's `sticky_exit_callback` hands the
closure a dummy control-flow slot, so whatever the closure writes — including
the `set_poll` at the top of every pass — cannot unset the exit).  The loop
checks the control flow at the iteration boundary: on reaching
`RedrawEventsCleared` with `Exit` set it delivers that pass, then one final
`LoopDestroyed` pass, and returns without dispatching anything further.
Each list element pairs an event with the acquisition outcome the
environment would give that pass. -/
def runLoop (app : Application) (cf : ControlFlow) :
    List (Event × AcquireResult) → Application × ControlFlow × List Effect
  | [] => (app, cf, [])
  | (ev, acq) :: rest =>
      match cf with
      | ControlFlow.Exit =>
          let r := step app ev acq
          if ev == Event.RedrawEventsCleared then
            let rd := step r.1 Event.LoopDestroyed acq
            (rd.1, ControlFlow.Exit, r.2.2 ++ rd.2.2)
          else
            let r2 := runLoop r.1 ControlFlow.Exit rest
            (r2.1, r2.2.1, r.2.2 ++ r2.2.2)
      | ControlFlow.Poll =>
          let r := step app ev acq
          let r2 := runLoop r.1 r.2.1 rest
          (r2.1, r2.2.1, r.2.2 ++ r2.2.2)

/-- Frame operations in the sense of the spec's claims: frame acquisition,
the recorded render pass, command submission and presentation.  Surface
reconfigurations, redraw requests, resize-call markers and diagnostics are
not frame operations. -/
def isFrameOp : Effect → Bool
  | Effect.acquire => true
  | Effect.beginRenderPass _ => true
  | Effect.submit => true
  | Effect.present => true
  | _ => false

/-- The platform guarantee about the remainder of an iteration after the
owned window's redraw pass: winit coalesces redraw requests and dispatches
at most one `RedrawRequested` per window per iteration, so up to the
iteration boundary (`RedrawEventsCleared`) no further `RedrawRequested` for
the given window identity arrives.  Events beyond the boundary are
unconstrained — once the loop has exited they are never dispatched. -/
def noOwnedRedrawBeforeBoundary (wid : Nat) :
    List (Event × AcquireResult) → Bool
  | [] => true
  | (ev, _) :: rest =>
      if ev == Event.RedrawEventsCleared then true
      else if ev == Event.RedrawRequested wid then false
      else noOwnedRedrawBeforeBoundary wid rest

/-- Format selection in `Application::new` (src/app.rs lines 59-66):
`formats.iter().copied().filter(|f| f.is_srgb()).next().unwrap_or(formats[0])`.
The `unwrap_or` argument `formats[0]` is evaluated eagerly, so an empty
capability list panics (modelled as `none`); otherwise the first sRGB format
is chosen, falling back to the first format. -/
def selectFormat (formats : List TextureFormat) : Option TextureFormat :=
  match formats.head? with
  | none => none
  | some f0 => some (((formats.filter fun f => f.is_srgb).head?).getD f0)

/-- The surface capability set returned by `surface.get_capabilities(&adapter)`. -/
structure SurfaceCapabilities where
  formats : List TextureFormat
  present_modes : List PresentMode
  alpha_modes : List AlphaMode
deriving DecidableEq, Repr

/-- The capability-dependent part of `Application::new` (src/app.rs lines
59-85), after the adapter and device have been obtained: select the surface
format, index `present_modes[0]` and `alpha_modes[0]` unguarded, and build
the `SurfaceConfiguration` from the window's inner size.  `none` models the
index-out-of-bounds panic on an empty capability list (the declared
`Result` error path only covers adapter/device failures, not these indexings).
The initial `surface.configure` call is issued with the returned config. -/
def Application.new (window_id : Nat) (size : PhysicalSize)
    (caps : SurfaceCapabilities) : Option Application :=
  match selectFormat caps.formats, caps.present_modes.head?,
      caps.alpha_modes.head? with
  | some surface_format, some pm, some am =>
      some { window_id := window_id
             size := size
             config :=
               { usage := TextureUsages.RENDER_ATTACHMENT
                 format := surface_format
                 width := size.width
                 height := size.height
                 present_mode := pm
                 alpha_mode := am
                 view_formats := [] } }
  | _, _, _ => none

/-- Spec-side definition of the gamma-corrected clear channel: the spec says
each channel equals `(v/255)^2.2` computed in floating point. -/
def specGammaChannel (v : Rat) : F64 :=
  F64.powf (F64.fdiv (F64.lit v) (F64.lit 255)) (F64.lit 2.2)

/-- Spec-side clear color: channels from the fixed 8-bit inputs 100, 149,
237, alpha always 1.0. -/
def specClearColor : Color where
  r := specGammaChannel 100
  g := specGammaChannel 149
  b := specGammaChannel 237
  a := F64.lit 1

/-- A concrete application state used by the witnesses. -/
def sampleApp : Application where
  config :=
    { usage := TextureUsages.RENDER_ATTACHMENT
      format := { ident := 7, srgb := true }
      width := 640
      height := 480
      present_mode := 0
      alpha_mode := 0
      view_formats := [] }
  size := { width := 640, height := 480 }
  window_id := 1

/-- A concrete application state with a degenerate (zero-width) stored size,
used by the witnesses. -/
def degenerateApp : Application where
  config :=
    { usage := TextureUsages.RENDER_ATTACHMENT
      format := { ident := 7, srgb := true }
      width := 640
      height := 480
      present_mode := 0
      alpha_mode := 0
      view_formats := [] }
  size := { width := 0, height := 480 }
  window_id := 1

/-- A concrete capability-format list whose first sRGB format is not its
first element, used by the witnesses. -/
def demoFormats : List TextureFormat :=
  [{ ident := 0, srgb := false }, { ident := 1, srgb := true },
   { ident := 2, srgb := true }]

/-- The head of a filtered list is the first element satisfying the
predicate. -/
theorem head?_filter_eq_find? {α : Type} (p : α → Bool) (l : List α) :
    (l.filter p).head? = l.find? p := by
  induction l with
  | nil => rfl
  | cons x xs ih =>
      by_cases hx : p x = true
      · simp [List.filter_cons, List.find?_cons, hx]
      · simp only [Bool.not_eq_true] at hx
        simp [List.filter_cons, List.find?_cons, hx, ih]

/-- `resize` never changes the window identity. -/
theorem resize_window_id (app : Application) (s : PhysicalSize) :
    (app.resize s).1.window_id = app.window_id := by
  unfold Application.resize
  split <;> rfl

/-- `resize` issues no frame operation (only, possibly, a reconfiguration). -/
theorem resize_no_frame_ops (app : Application) (s : PhysicalSize) :
    (app.resize s).2.filter isFrameOp = [] := by
  unfold Application.resize
  split <;> rfl

/-- No pass of the closure changes the window identity. -/
theorem step_window_id (app : Application) (ev : Event) (acq : AcquireResult) :
    (step app ev acq).1.window_id = app.window_id := by
  cases ev with
  | WindowEvent wid wev =>
      by_cases hg : (wid == app.window_id && !app.input wev) = true
      · cases wev with
        | CloseRequested => simp [step, hg]
        | KeyboardInput st kc =>
            cases st with
            | Pressed =>
                rcases kc with _ | k
                · simp [step, hg]
                · cases k <;> simp [step, hg]
            | Released =>
                rcases kc with _ | k
                · simp [step, hg]
                · cases k <;> simp [step, hg]
        | Resized s => simp [step, hg, resize_window_id]
        | ScaleFactorChanged s => simp [step, hg, resize_window_id]
        | UnhandledKind => simp [step, hg]
      · simp [step, hg]
  | RedrawRequested wid =>
      by_cases hg : (wid == app.window_id) = true
      · cases acq with
        | ok => simp [step, hg, Application.update, Application.render]
        | err e =>
            cases e <;>
              simp [step, hg, Application.update, Application.render,
                resize_window_id]
      · simp [step, hg]
  | MainEventsCleared => rfl
  | RedrawEventsCleared => rfl
  | LoopDestroyed => rfl
  | UnhandledKind => rfl

/-- A pass on any event other than the owned window's `RedrawRequested`
issues no frame operation: at most reconfigurations, redraw requests,
resize-call markers and diagnostics. -/
theorem step_no_frame_ops (app : Application) (ev : Event)
    (acq : AcquireResult) (h : ev ≠ Event.RedrawRequested app.window_id) :
    (step app ev acq).2.2.filter isFrameOp = [] := by
  cases ev with
  | WindowEvent wid wev =>
      by_cases hg : (wid == app.window_id && !app.input wev) = true
      · cases wev with
        | CloseRequested => simp [step, hg]
        | KeyboardInput st kc =>
            cases st with
            | Pressed =>
                rcases kc with _ | k
                · simp [step, hg]
                · cases k <;> simp [step, hg]
            | Released =>
                rcases kc with _ | k
                · simp [step, hg]
                · cases k <;> simp [step, hg]
        | Resized s => simp [step, hg, isFrameOp, resize_no_frame_ops]
        | ScaleFactorChanged s =>
            simp [step, hg, isFrameOp, resize_no_frame_ops]
        | UnhandledKind => simp [step, hg]
      · simp [step, hg]
  | RedrawRequested wid =>
      by_cases hg : (wid == app.window_id) = true
      · exact absurd (congrArg Event.RedrawRequested (eq_of_beq hg)) h
      · simp [step, hg]
  | MainEventsCleared => rfl
  | RedrawEventsCleared => rfl
  | LoopDestroyed => rfl
  | UnhandledKind => rfl

/-- Unfolding the sticky branch of `runLoop` on a non-boundary event. -/
theorem runLoop_exit_cons (app : Application) (ev : Event)
    (acq : AcquireResult) (rest : List (Event × AcquireResult))
    (hb : ¬ (ev == Event.RedrawEventsCleared) = true) :
    runLoop app ControlFlow.Exit ((ev, acq) :: rest) =
      ((runLoop (step app ev acq).1 ControlFlow.Exit rest).1,
       (runLoop (step app ev acq).1 ControlFlow.Exit rest).2.1,
       (step app ev acq).2.2 ++
         (runLoop (step app ev acq).1 ControlFlow.Exit rest).2.2) := by
  simp only [runLoop]
  rw [if_neg hb]

/-- After `Exit` is set, the sticky remainder of the iteration issues no
frame operation, provided it contains no `RedrawRequested` for the owned
window before the iteration boundary, and the loop ends in `Exit`. -/
theorem runLoop_exit_frame_silent (app : Application)
    (post : List (Event × AcquireResult))
    (h : noOwnedRedrawBeforeBoundary app.window_id post = true) :
    (runLoop app ControlFlow.Exit post).2.1 = ControlFlow.Exit ∧
    (runLoop app ControlFlow.Exit post).2.2.filter isFrameOp = [] := by
  induction post generalizing app with
  | nil => exact ⟨rfl, rfl⟩
  | cons p rest ih =>
      obtain ⟨ev, acq⟩ := p
      by_cases hb : (ev == Event.RedrawEventsCleared) = true
      · have he : ev = Event.RedrawEventsCleared := eq_of_beq hb
        subst he
        exact ⟨rfl, rfl⟩
      · have h0 := h
        simp only [noOwnedRedrawBeforeBoundary] at h0
        rw [if_neg hb] at h0
        by_cases hr : (ev == Event.RedrawRequested app.window_id) = true
        · rw [if_pos hr] at h0
          exact absurd h0 (by decide)
        · rw [if_neg hr] at h0
          have hne : ev ≠ Event.RedrawRequested app.window_id := by
            intro he
            subst he
            exact hr (by simp)
          have h2 : noOwnedRedrawBeforeBoundary
              (step app ev acq).1.window_id rest = true := by
            rw [step_window_id]
            exact h0
          obtain ⟨ihc, ihf⟩ := ih (step app ev acq).1 h2
          rw [runLoop_exit_cons app ev acq rest hb]
          refine ⟨ihc, ?_⟩
          rw [List.filter_append, step_no_frame_ops app ev acq hne, ihf]
          rfl

/-- Claim C1: when the render call of an event-processing pass returns the
`OutOfMemory` surface error, that pass transitions the driver to Exiting
(`ControlFlow.Exit`), and the only frame operation of the pass is the failed
acquisition itself, which precedes the transition.  The exit is sticky, so
the closure still receives the remainder of the iteration; since the pass
was the owned window's `RedrawRequested` dispatch and winit coalesces redraw
requests — at most one `RedrawRequested` per window per iteration — that
remainder contains no further owned-window redraw before the boundary
(`noOwnedRedrawBeforeBoundary`), hence it issues no acquire, render pass,
submit or present, the loop stops at the boundary, and it ends in Exiting. -/
theorem oom_exits_loop (app : Application)
    (post : List (Event × AcquireResult))
    (h : noOwnedRedrawBeforeBoundary app.window_id post = true) :
    step app (Event.RedrawRequested app.window_id)
        (AcquireResult.err SurfaceError.OutOfMemory) =
      (app, ControlFlow.Exit, [Effect.acquire]) ∧
    (runLoop app ControlFlow.Exit post).2.1 = ControlFlow.Exit ∧
    (runLoop app ControlFlow.Exit post).2.2.filter isFrameOp = [] := by
  refine ⟨?_, runLoop_exit_frame_silent app post h⟩
  simp [step, Application.update, Application.render]

/-- Witness for C1: the iteration's remainder after the redraw pass is its
boundary, then the final `LoopDestroyed` callback. -/
theorem oom_exits_loop_witness :
    noOwnedRedrawBeforeBoundary sampleApp.window_id
        [(Event.RedrawEventsCleared, AcquireResult.ok)] = true ∧
    (step sampleApp (Event.RedrawRequested sampleApp.window_id)
        (AcquireResult.err SurfaceError.OutOfMemory) =
      (sampleApp, ControlFlow.Exit, [Effect.acquire]) ∧
     (runLoop sampleApp ControlFlow.Exit
        [(Event.RedrawEventsCleared, AcquireResult.ok)]).2.1 =
       ControlFlow.Exit ∧
     (runLoop sampleApp ControlFlow.Exit
        [(Event.RedrawEventsCleared, AcquireResult.ok)]).2.2.filter isFrameOp
       = []) :=
  ⟨by decide,
   oom_exits_loop sampleApp [(Event.RedrawEventsCleared, AcquireResult.ok)]
     (by decide)⟩

/-- Claim C2 counterexample: in an iteration carrying the Escape press-down
and then `MainEventsCleared` — their mandatory winit 0.28 order, window
events before `MainEventsCleared` — the Escape pass transitions to Exiting
with no effects, yet the whole run still emits `requestRedraw`: the sticky
exit keeps the closure receiving the iteration's remaining events, and the
`MainEventsCleared` pass at app.rs line 191 requests a redraw after the
transition.  This refutes the claim's "no further redraw is requested after
that transition" as stated. -/
theorem escape_redraw_counterexample :
    step sampleApp (Event.WindowEvent sampleApp.window_id
        (WindowEvent.KeyboardInput ElementState.Pressed
          (some VirtualKeyCode.Escape))) AcquireResult.ok =
      (sampleApp, ControlFlow.Exit, []) ∧
    (runLoop sampleApp ControlFlow.Poll
        [(Event.WindowEvent sampleApp.window_id
            (WindowEvent.KeyboardInput ElementState.Pressed
              (some VirtualKeyCode.Escape)), AcquireResult.ok),
         (Event.MainEventsCleared, AcquireResult.ok),
         (Event.RedrawEventsCleared, AcquireResult.ok)]).2.2 =
      [Effect.requestRedraw] :=
  ⟨rfl, rfl⟩

/-- Claim C2 (amended): an Escape key press-down targeted at the owned
window is not consumed by the input pre-filter and transitions the driver to
Exiting within the same event-processing pass, which itself issues no
effects; because the exit is sticky, the remainder of the current iteration
is still dispatched, and its `MainEventsCleared` requests exactly one more
redraw; once the iteration boundary is reached the loop stops, so no events
— and no redraw requests — follow it, whatever the platform had queued. -/
theorem escape_exit_sticky_redraw (app : Application)
    (acq acq2 acq3 : AcquireResult) (post : List (Event × AcquireResult)) :
    app.input (WindowEvent.KeyboardInput ElementState.Pressed
        (some VirtualKeyCode.Escape)) = false ∧
    step app (Event.WindowEvent app.window_id
        (WindowEvent.KeyboardInput ElementState.Pressed
          (some VirtualKeyCode.Escape))) acq =
      (app, ControlFlow.Exit, []) ∧
    runLoop app ControlFlow.Exit
        ((Event.MainEventsCleared, acq2) ::
          (Event.RedrawEventsCleared, acq3) :: post) =
      (app, ControlFlow.Exit, [Effect.requestRedraw]) := by
  refine ⟨rfl, ?_, rfl⟩
  simp [step, Application.input]

/-- Claim C3: a resize call with a zero width or height leaves the whole
application state — in particular the stored `SurfaceConfiguration` —
unchanged and issues no effect, so no surface reconfiguration happens. -/
theorem resize_zero_is_noop (app : Application) (s : PhysicalSize)
    (h : s.width = 0 ∨ s.height = 0) :
    app.resize s = (app, []) := by
  rcases h with h | h <;> simp [Application.resize, h]

/-- Witness for C3 at a concrete minimized-window size. -/
theorem resize_zero_is_noop_witness :
    (({ width := 0, height := 300 } : PhysicalSize).width = 0 ∨
        ({ width := 0, height := 300 } : PhysicalSize).height = 0) ∧
    sampleApp.resize { width := 0, height := 300 } = (sampleApp, []) :=
  ⟨Or.inl rfl,
   resize_zero_is_noop sampleApp { width := 0, height := 300 } (Or.inl rfl)⟩

/-- Claim C4: a resize call with positive width and height stores the new
size, sets the config's width and height to exactly the event's values, and
issues the surface reconfiguration with that updated config as the only
effect of the (synchronous) call — hence before any later frame
acquisition. -/
theorem resize_positive_updates_config (app : Application) (s : PhysicalSize)
    (h : 0 < s.width ∧ 0 < s.height) :
    app.resize s =
      ({ app with
         size := s,
         config := { app.config with width := s.width, height := s.height } },
       [Effect.configureSurface
          { app.config with width := s.width, height := s.height }]) := by
  obtain ⟨h1, h2⟩ := h
  simp [Application.resize, h1, h2]

/-- Witness for C4 at the concrete size 800×600. -/
theorem resize_positive_updates_config_witness :
    (0 < ({ width := 800, height := 600 } : PhysicalSize).width ∧
        0 < ({ width := 800, height := 600 } : PhysicalSize).height) ∧
    sampleApp.resize { width := 800, height := 600 } =
      ({ sampleApp with
         size := { width := 800, height := 600 },
         config := { sampleApp.config with width := 800, height := 600 } },
       [Effect.configureSurface
          { sampleApp.config with width := 800, height := 600 }]) :=
  ⟨⟨Nat.succ_pos _, Nat.succ_pos _⟩,
   resize_positive_updates_config sampleApp { width := 800, height := 600 }
     ⟨Nat.succ_pos _, Nat.succ_pos _⟩⟩

/-- Claim C5: on a non-empty capability list, format selection picks the
first sRGB format in list order when one exists (`List.find?`), and the
first element of the list otherwise. -/
theorem surface_format_selection (formats : List TextureFormat)
    (hne : formats ≠ []) :
    ((formats.any fun f => f.is_srgb) = true →
        selectFormat formats = formats.find? fun f => f.is_srgb) ∧
    ((formats.any fun f => f.is_srgb) = false →
        selectFormat formats = formats.head?) := by
  cases formats with
  | nil => exact absurd rfl hne
  | cons x xs =>
      constructor
      · intro hany
        have hex : ∃ f, f ∈ x :: xs ∧ (fun f => f.is_srgb) f = true := by
          simpa [List.any_eq_true] using hany
        have hs : ((x :: xs).find? fun f => f.is_srgb).isSome = true :=
          List.find?_isSome.mpr hex
        obtain ⟨g, hg⟩ := Option.isSome_iff_exists.mp hs
        simp [selectFormat, head?_filter_eq_find?, hg]
      · intro hnone
        have hall : ∀ f ∈ x :: xs, ¬ f.is_srgb = true := by
          simpa [List.any_eq_false] using hnone
        have hfil : ((x :: xs).filter fun f => f.is_srgb) = [] :=
          List.filter_eq_nil_iff.mpr hall
        simp [selectFormat, hfil]

/-- Witness for C5 on a list whose first sRGB format is its second element. -/
theorem surface_format_selection_witness :
    demoFormats ≠ [] ∧
    (((demoFormats.any fun f => f.is_srgb) = true →
        selectFormat demoFormats = demoFormats.find? fun f => f.is_srgb) ∧
     ((demoFormats.any fun f => f.is_srgb) = false →
        selectFormat demoFormats = demoFormats.head?)) :=
  ⟨by decide, surface_format_selection demoFormats (by decide)⟩

/-- Claim C6: when render returns the `Lost` surface error and the stored
size is non-degenerate, the pass issues exactly one resize call, with the
currently stored size, which immediately reconfigures the surface with that
last known size; the driver stays Running (`ControlFlow.Poll`). -/
theorem lost_triggers_single_resize (app : Application)
    (h : 0 < app.size.width ∧ 0 < app.size.height) :
    step app (Event.RedrawRequested app.window_id)
        (AcquireResult.err SurfaceError.Lost) =
      ({ app with
         config := { app.config with
                     width := app.size.width,
                     height := app.size.height } },
       ControlFlow.Poll,
       [Effect.acquire, Effect.resizeCall app.size,
        Effect.configureSurface
          { app.config with
            width := app.size.width,
            height := app.size.height }]) := by
  obtain ⟨h1, h2⟩ := h
  simp [step, Application.update, Application.render, Application.resize,
    h1, h2]

/-- Witness for C6 at a concrete 640×480 state. -/
theorem lost_triggers_single_resize_witness :
    (0 < sampleApp.size.width ∧ 0 < sampleApp.size.height) ∧
    step sampleApp (Event.RedrawRequested sampleApp.window_id)
        (AcquireResult.err SurfaceError.Lost) =
      ({ sampleApp with
         config := { sampleApp.config with
                     width := sampleApp.size.width,
                     height := sampleApp.size.height } },
       ControlFlow.Poll,
       [Effect.acquire, Effect.resizeCall sampleApp.size,
        Effect.configureSurface
          { sampleApp.config with
            width := sampleApp.size.width,
            height := sampleApp.size.height }]) :=
  ⟨by decide, lost_triggers_single_resize sampleApp (by decide)⟩

/-- Claim C7: when render returns any surface error other than `Lost` and
`OutOfMemory` (`Outdated` or `Timeout` in wgpu 0.16), the pass only logs the
error: the application state is unchanged and the driver stays Running. -/
theorem transient_error_only_logged (app : Application) (e : SurfaceError)
    (h1 : e ≠ SurfaceError.Lost) (h2 : e ≠ SurfaceError.OutOfMemory) :
    step app (Event.RedrawRequested app.window_id) (AcquireResult.err e) =
      (app, ControlFlow.Poll, [Effect.acquire, Effect.log e]) := by
  cases e with
  | Lost => exact absurd rfl h1
  | OutOfMemory => exact absurd rfl h2
  | Timeout => simp [step, Application.update, Application.render]
  | Outdated => simp [step, Application.update, Application.render]

/-- Witness for C7 at the `Timeout` error. -/
theorem transient_error_only_logged_witness :
    SurfaceError.Timeout ≠ SurfaceError.Lost ∧
    SurfaceError.Timeout ≠ SurfaceError.OutOfMemory ∧
    step sampleApp (Event.RedrawRequested sampleApp.window_id)
        (AcquireResult.err SurfaceError.Timeout) =
      (sampleApp, ControlFlow.Poll,
       [Effect.acquire, Effect.log SurfaceError.Timeout]) :=
  ⟨by decide, by decide,
   transient_error_only_logged sampleApp SurfaceError.Timeout
     (by decide) (by decide)⟩

/-- Claim C8: the recorded pass is a clear-only pass — one color attachment
with no resolve target, `store = true`, no depth/stencil attachment — whose
clear color is exactly the spec's gamma map `(v/255)^2.2` applied to the
fixed inputs 100, 149, 237 with alpha 1.0; and the pass is a constant: every
successful render, from any application state, emits the same single render
pass between the acquisition and the submit/present. -/
theorem clear_pass_structure :
    renderPassDesc =
      { color_attachments :=
          [some { resolve_target := none
                  ops := { load := LoadOp.Clear specClearColor
                           store := true } }]
        depth_stencil_attachment := none } ∧
    ∀ app : Application,
      app.render AcquireResult.ok =
        (Except.ok (),
         [Effect.acquire, Effect.beginRenderPass renderPassDesc,
          Effect.submit, Effect.present]) :=
  ⟨rfl, fun _ => rfl⟩

/-- Claim C9: when render returns `Lost` while the stored size has a zero
dimension, the recovery resize call is issued but is a no-op: the state,
including the `SurfaceConfiguration`, is unchanged and no surface
reconfiguration effect is emitted. -/
theorem lost_with_degenerate_size_skips_reconfigure (app : Application)
    (h : app.size.width = 0 ∨ app.size.height = 0) :
    step app (Event.RedrawRequested app.window_id)
        (AcquireResult.err SurfaceError.Lost) =
      (app, ControlFlow.Poll,
       [Effect.acquire, Effect.resizeCall app.size]) := by
  rcases h with h | h <;>
    simp [step, Application.update, Application.render, Application.resize, h]

/-- Witness for C9 at a zero-width stored size. -/
theorem lost_with_degenerate_size_skips_reconfigure_witness :
    (degenerateApp.size.width = 0 ∨ degenerateApp.size.height = 0) ∧
    step degenerateApp (Event.RedrawRequested degenerateApp.window_id)
        (AcquireResult.err SurfaceError.Lost) =
      (degenerateApp, ControlFlow.Poll,
       [Effect.acquire, Effect.resizeCall degenerateApp.size]) :=
  ⟨Or.inl rfl,
   lost_with_degenerate_size_skips_reconfigure degenerateApp (Or.inl rfl)⟩

/-- Claim C10: the capability-dependent part of initialization succeeds
exactly when the adapter-reported `formats`, `present_modes` and
`alpha_modes` lists are all non-empty; an empty list in any of the three
makes the unguarded `[0]` indexing panic (modelled as `none`) instead of
returning the declared error result, and under the non-emptiness
precondition the panic branch is unreachable. -/
theorem new_total_iff_nonempty_caps (window_id : Nat) (size : PhysicalSize)
    (caps : SurfaceCapabilities) :
    (Application.new window_id size caps).isSome = true ↔
      (caps.formats ≠ [] ∧ caps.present_modes ≠ [] ∧
        caps.alpha_modes ≠ []) := by
  obtain ⟨fl, pl, al⟩ := caps
  cases fl <;> cases pl <;> cases al <;>
    simp [Application.new, selectFormat]

end PerfectScale
